import Mathlib

/-!
Shallow embedding of the Volt-Ed authentication core (Express/Mongoose):
controllers `sendOTP`, `signup`, `login` (server/controllers/Auth.js),
controllers `resetPasswordToken`, `updatePassword` (server/controllers/ResetPassword.js),
middleware `auth`, `isStudent`, `isInstructor`, `isAdmin` (AuthMiddleware.js),
and the Mongoose models `User` and `OTP` with the OTP pre-save mail hook.

The embedding follows the JavaScript source line by line.  Where the source
relies on dynamic JavaScript semantics (property access on `null`/`undefined`
throwing a TypeError, `undefined == 0` being false, `undefined < n` being
false, assignment to a `const` binding throwing), those semantics are made
explicit through a small dynamic value type `JSVal` and evaluation helpers,
so that the behaviour is derived rather than asserted.  Mongoose runs in
strict mode (the default): assigning a document property whose path is not in
the schema stores nothing, and reading such a path yields `undefined`; the
`User` schema declares `token` and `resetPasswordExpires` (and no
`resetPasswordToken`, no `resetPasswordExpire`).  MongoDB TTL expiry of OTP
records (300 seconds after `createdAt`) is idealised as exact: queries see
only live records.
-/

namespace VoltEd

/-- Error raised by the JavaScript runtime while a controller body runs;
each controller catches it in its top-level `try`/`catch` and answers 500. -/
inductive JsErr where
  | typeError (msg : String)
  deriving Repr, DecidableEq

/-- A document of the `otps` collection: `email`, `otp` (the 6-digit code as a
string), `createdAt` (seconds; the schema gives it `expires: 300`). -/
structure OTPRec where
  email : String
  otp : String
  createdAt : Nat
  deriving Repr, DecidableEq

/-- A document of the `users` collection, with exactly the schema paths of
server/models/User.js that the authentication core touches.  `profileRef`
embeds the schema path named `Profile` (an ObjectId reference).  The schema
has a `token` path (session token) and a `resetPasswordExpires` path; it has
no `resetPasswordToken` and no `resetPasswordExpire` path. -/
structure UserRec where
  id : Nat
  firstName : String
  lastName : String
  email : String
  password : String
  accountType : String
  active : Bool
  approved : Bool
  image : String
  token : Option String
  resetPasswordExpires : Option Nat
  profileRef : Option Nat
  createdAt : Nat
  deriving Repr, DecidableEq

/-- A document of the `profiles` collection as created by `signup`
(all four personal fields are created `null`). -/
structure ProfileRec where
  id : Nat
  gender : Option String
  dateOfBirth : Option String
  about : Option String
  contact : Option String
  deriving Repr, DecidableEq

/-- The database state: the three collections the auth core touches, plus a
counter supplying fresh ObjectIds. -/
structure Store where
  users : List UserRec
  otps : List OTPRec
  profiles : List ProfileRec
  nextId : Nat
  deriving Repr, DecidableEq

/-- OTP records that the TTL monitor has not yet purged at time `now`:
a record expires exactly 300 seconds after its `createdAt`. -/
def liveOtps (st : Store) (now : Nat) : List OTPRec :=
  st.otps.filter (fun r => now < r.createdAt + 300)

/-- `User.findOne({ email })`: the first stored user with this email. -/
def findUserByEmail (st : Store) (email : String) : Option UserRec :=
  st.users.find? (fun u => u.email == email)

/-- `User.findOne({ token })`: the first stored user whose `token` schema path
equals the given string (documents whose `token` is unset do not match). -/
def findUserByToken (st : Store) (tok : String) : Option UserRec :=
  st.users.find? (fun u => u.token == some tok)

/-- `OTP.findOne({ otp })`: the first live OTP record carrying this code. -/
def findOtpByCode (st : Store) (now : Nat) (code : String) : Option OTPRec :=
  (liveOtps st now).find? (fun r => r.otp == code)

/-- `OTP.findOne({ email }).sort({ createdAt: -1 }).limit(1)`: the live OTP
record for the email with the greatest `createdAt` (`findOne` resolves to a
single document or `null`; on a tie the earlier-stored record is kept). -/
def recentOtp (st : Store) (now : Nat) (email : String) : Option OTPRec :=
  ((liveOtps st now).filter (fun r => r.email == email)).foldl
    (fun acc r =>
      match acc with
      | none => some r
      | some b => if b.createdAt < r.createdAt then some r else acc)
    none

/-- Replace the stored user with id `uid` by `u` (a Mongoose `save` of a
hydrated document writes its modified schema paths back to that document). -/
def saveUser (st : Store) (uid : Nat) (u : UserRec) : Store :=
  { st with users := st.users.map (fun v => if v.id == uid then u else v) }

/-! ### Dynamic JavaScript values

The controllers occasionally step outside the typed happy path (array access
on a document, property reads of paths absent from the schema).  `JSVal`
models the values that can flow through those expressions, and the helpers
give the ECMAScript semantics of the exact operations the source performs. -/

/-- A dynamic JavaScript value as it appears in the controller bodies. -/
inductive JSVal where
  | undef
  | null
  | num (n : Int)
  | str (s : String)
  | boolean (b : Bool)
  | otpDoc (r : OTPRec)
  | userDoc (u : UserRec)
  deriving Repr, DecidableEq

/-- Wrap an optional string the way a hydrated Mongoose document presents an
optional schema path: unset paths read as `undefined`. -/
def jsOfOptStr : Option String → JSVal
  | none => JSVal.undef
  | some s => JSVal.str s

/-- Wrap an optional date-valued schema path. -/
def jsOfOptNum : Option Nat → JSVal
  | none => JSVal.undef
  | some n => JSVal.num n

/-- Property read `v[name]` / `v.name`.  Reading a property of `undefined` or
`null` throws a TypeError; a document yields its schema paths and `undefined`
for anything else (documents have no `length` and no numeric indices);
primitives yield `undefined` for the properties the source reads. -/
def jsGetProp : JSVal → String → Except JsErr JSVal
  | JSVal.undef, name =>
      Except.error (JsErr.typeError ("Cannot read properties of undefined (reading " ++ name ++ ")"))
  | JSVal.null, name =>
      Except.error (JsErr.typeError ("Cannot read properties of null (reading " ++ name ++ ")"))
  | JSVal.otpDoc r, name =>
      Except.ok (if name == "email" then JSVal.str r.email
        else if name == "otp" then JSVal.str r.otp
        else if name == "createdAt" then JSVal.num r.createdAt
        else JSVal.undef)
  | JSVal.userDoc u, name =>
      Except.ok (if name == "email" then JSVal.str u.email
        else if name == "firstName" then JSVal.str u.firstName
        else if name == "lastName" then JSVal.str u.lastName
        else if name == "password" then JSVal.str u.password
        else if name == "accountType" then JSVal.str u.accountType
        else if name == "token" then jsOfOptStr u.token
        else if name == "resetPasswordExpires" then jsOfOptNum u.resetPasswordExpires
        else JSVal.undef)
  | JSVal.num _, _ => Except.ok JSVal.undef
  | JSVal.str s, name =>
      Except.ok (if name == "length" then JSVal.num s.length else JSVal.undef)
  | JSVal.boolean _, _ => Except.ok JSVal.undef

/-- `ToNumber` on the values that reach a numeric comparison; `none` is NaN. -/
def jsToNumber : JSVal → Option Int
  | JSVal.undef => none
  | JSVal.null => some 0
  | JSVal.num n => some n
  | JSVal.boolean b => some (if b then 1 else 0)
  | JSVal.str s => s.toInt?
  | JSVal.otpDoc _ => none
  | JSVal.userDoc _ => none

/-- Loose equality test `v == 0` as the source writes it; any NaN operand
(in particular `undefined`) makes the comparison false. -/
def jsLooseEqZero (v : JSVal) : Bool :=
  match jsToNumber v with
  | some n => n == 0
  | none => false

/-- Relational comparison `a < b`; any NaN operand makes it false. -/
def jsLessThan (a b : JSVal) : Bool :=
  match jsToNumber a, jsToNumber b with
  | some x, some y => x < y
  | _, _ => false

/-- Strict inequality `a !== b`. -/
def jsStrictNe (a b : JSVal) : Bool :=
  a != b

/-- Property read on a value that is a document (hence cannot throw);
used where the source reads a path of an already-null-checked document. -/
def jsGetPropD (v : JSVal) (name : String) : JSVal :=
  match jsGetProp v name with
  | Except.ok w => w
  | Except.error _ => JSVal.undef

/-! ### External collaborators -/

/-- Model of `bcrypt.hash(password, salt)` at the fixed work factor 10: an
injective tagging of the password (the claims depend only on `bcryptCompare`
agreeing with it). -/
def bcryptHash (password : String) : String :=
  "bcrypt10$" ++ password

/-- Model of `bcrypt.compare(password, storedHash)`. -/
def bcryptCompare (password storedHash : String) : Bool :=
  storedHash == bcryptHash password

/-- The payload `jwt.sign` embeds on login: `{ id, email, accountType }`. -/
structure JwtPayload where
  id : Nat
  email : String
  accountType : String
  deriving Repr, DecidableEq

/-- A signed JSON web token: payload, absolute expiry (seconds), and the
secret it was signed with. -/
structure Jwt where
  payload : JwtPayload
  exp : Nat
  secret : String
  deriving Repr, DecidableEq

/-- `jwt.sign(payload, secret, { expiresIn: "1h" })` issued at time `now`. -/
def jwtSign (payload : JwtPayload) (secret : String) (now : Nat) : Jwt :=
  { payload := payload, exp := now + 3600, secret := secret }

/-- A token string as transported by cookie, body, or header: either a
well-formed signed token or arbitrary malformed text. -/
inductive TokenBlob where
  | signed (j : Jwt)
  | malformed (s : String)
  deriving Repr, DecidableEq

/-- `jwt.verify(token, secret)` at time `now`: rejects malformed input, a
wrong signature, and an expired token. -/
def jwtVerify (t : TokenBlob) (secret : String) (now : Nat) : Option JwtPayload :=
  match t with
  | TokenBlob.malformed _ => none
  | TokenBlob.signed j =>
      if j.secret == secret && now < j.exp then some j.payload else none

/-- Outcome of one `mailSender` call (the notification collaborator). -/
inductive MailResult where
  | delivered (info : String)
  | failed (msg : String)
  deriving Repr, DecidableEq

/-! ### Responses -/

/-- The user document as serialised into the login response after the
in-memory mutations `user.token = token` and `user.password = undefined`:
all schema paths of the fetched record, with the `token` path holding the
freshly signed session token and the `password` path absent. -/
structure LoginView where
  id : Nat
  firstName : String
  lastName : String
  email : String
  accountType : String
  active : Bool
  approved : Bool
  image : String
  token : Jwt
  resetPasswordExpires : Option Nat
  profileRef : Option Nat
  createdAt : Nat
  deriving Repr, DecidableEq

/-- The `data` (or extra top-level) payload a controller attaches to its JSON
response, one constructor per shape occurring in the source. -/
inductive RespData where
  | nothing
  | otpData (payloadEmail : String) (payloadOtp : String) (body : OTPRec)
  | signupData (user : UserRec) (profile : ProfileRec)
  | loginData (user : LoginView)
  | resetLinkData (resetLink : String)
  | pwData (hashedPassword : String) (email : String)
  | errData (error : String)
  deriving Repr, DecidableEq

/-- An HTTP JSON response: status code, `success` flag, `message` (the
middleware uses an `error` field instead; both embed here), payload. -/
structure Response where
  status : Nat
  success : Bool
  message : String
  data : RespData
  deriving Repr, DecidableEq

/-- A failure response with no payload. -/
def failResp (status : Nat) (message : String) : Response :=
  { status := status, success := false, message := message, data := RespData.nothing }

/-- A 500 response built by a controller catch block:
`{ success: false, message, error: error.message }`. -/
def catchResp (message : String) (e : JsErr) : Response :=
  match e with
  | JsErr.typeError m =>
      { status := 500, success := false, message := message, data := RespData.errData m }

/-! ### OTP model: pre-save hook (server/models/OTP.js) -/

/-- Embedding of `sendVerificationEmail(email, otp)` of OTP.js: it awaits the
mail collaborator inside `try`/`catch`; a delivery failure is logged and
swallowed, so the function never throws. -/
def sendVerificationEmail (mail : MailResult) : Except JsErr Unit :=
  match mail with
  | MailResult.delivered _ => Except.ok ()
  | MailResult.failed _ => Except.ok ()

/-- Embedding of `OTP.create({ email, otp })`: the pre-save hook runs
`sendVerificationEmail` and then `next()`, after which the record is
inserted; the created document is returned. -/
def otpCreate (st : Store) (r : OTPRec) (mail : MailResult) :
    Except JsErr (Store × OTPRec) := do
  let _ ← sendVerificationEmail mail
  Except.ok ({ st with otps := st.otps ++ [r] }, r)

/-! ### Controller `sendOTP` (Auth.js) -/

/-- Embedding of `exports.sendOTP`.  `gen i` is the i-th draw of
`OTPGenerator.generate(6, ...)` (an external random source).  The collision
branch reflects the source faithfully: the retry loop body
`result = await OTP.findOne({ otp })` assigns to the `const` binding
`result`, which throws a TypeError on its first iteration (after one further
unused draw `gen 1`), so the outer catch answers 500 and no record is
created.  On the unique path the record is created (the pre-save hook mails
the code) and the response carries `data: { payload, OTPBody }`, i.e. the
raw code, back to the caller. -/
def sendOTP (st : Store) (now : Nat) (email : String) (gen : Nat → String)
    (mail : MailResult) : Store × Response :=
  match findUserByEmail st email with
  | some _ => (st, failResp 401 "User already registered")
  | none =>
      let otp := gen 0
      match findOtpByCode st now otp with
      | some _ =>
          let _secondDraw := gen 1
          (st, catchResp "Unable to send OTP"
            (JsErr.typeError "Assignment to constant variable."))
      | none =>
          match otpCreate st { email := email, otp := otp, createdAt := now } mail with
          | Except.error e => (st, catchResp "Unable to send OTP" e)
          | Except.ok (st2, body) =>
              (st2, { status := 200, success := true,
                      message := "OTP sent successfully",
                      data := RespData.otpData email otp body })

/-! ### Controller `signup` (Auth.js) -/

/-- The request body of `POST /signup`. -/
structure SignupArgs where
  firstName : String
  lastName : String
  email : String
  password : String
  confirmPassword : String
  accountType : String
  otp : String
  deriving Repr, DecidableEq

/-- The OTP-validation step of `signup`, exactly as the source evaluates it.
`otpPresent` is the resolved value of
`OTP.findOne({ email }).sort({ createdAt: -1 }).limit(1)`: a single document
or `null` (not an array).  The source then runs
`if (otpPresent.length == 0) ... else if (otpPresent[0].otp !== otp) ...`;
`Except.ok (some r)` means an early error response `r`, `Except.ok none`
means validation passed, `Except.error` a thrown TypeError. -/
def signupOtpCheck (otpPresent : JSVal) (otp : String) :
    Except JsErr (Option Response) := do
  let len ← jsGetProp otpPresent "length"
  if jsLooseEqZero len then
    Except.ok (some (failResp 400 "OTP Expired"))
  else do
    let first ← jsGetProp otpPresent "0"
    let code ← jsGetProp first "otp"
    if jsStrictNe code (JSVal.str otp) then
      Except.ok (some (failResp 400 "Invalid OTP"))
    else
      Except.ok none

/-- The post-validation tail of `signup`: hash the password, create the
profile document (all personal fields `null`), create the user, fire the
welcome mail without awaiting it, answer 201 with the user and profile. -/
def signupPersist (st : Store) (now : Nat) (a : SignupArgs) : Store × Response :=
  let hashedPassword := bcryptHash a.password
  let profileDetails : ProfileRec :=
    { id := st.nextId, gender := none, dateOfBirth := none,
      about := none, contact := none }
  let user : UserRec :=
    { id := st.nextId + 1, firstName := a.firstName, lastName := a.lastName,
      email := a.email, password := hashedPassword,
      accountType := a.accountType, active := true, approved := false,
      image := "https://api.dicebear.com/5.x/initials/svg?seed="
        ++ a.firstName ++ "%20" ++ a.lastName,
      token := none, resetPasswordExpires := none,
      profileRef := some profileDetails.id, createdAt := now }
  let st2 : Store :=
    { st with users := st.users ++ [user],
              profiles := st.profiles ++ [profileDetails],
              nextId := st.nextId + 2 }
  (st2, { status := 201, success := true,
          message := "User registered successfully",
          data := RespData.signupData user profileDetails })

/-- Embedding of `exports.signup`: required-field check, password match
check, duplicate-email check, then the OTP validation of `signupOtpCheck`
on the single-document-or-null value `recentOtp` resolves to; a thrown
TypeError is caught by the controller and answered 500. -/
def signup (st : Store) (now : Nat) (a : SignupArgs) : Store × Response :=
  if a.firstName == "" || a.lastName == "" || a.email == "" || a.password == ""
      || a.confirmPassword == "" || a.accountType == "" || a.otp == "" then
    (st, failResp 400 "All fields are required")
  else if a.password != a.confirmPassword then
    (st, failResp 400 "Passwords do not match")
  else
    match findUserByEmail st a.email with
    | some _ => (st, failResp 400 "User already registered")
    | none =>
        let otpPresent : JSVal :=
          match recentOtp st now a.email with
          | none => JSVal.null
          | some r => JSVal.otpDoc r
        match signupOtpCheck otpPresent a.otp with
        | Except.error e => (st, catchResp "Unable to register user" e)
        | Except.ok (some r) => (st, r)
        | Except.ok none => signupPersist st now a

/-! ### Controller `login` (Auth.js) -/

/-- The value a successful login returns: the response, plus the cookie
`res.cookie("token", token, { expires: now + 3 days, httpOnly: true })`. -/
structure LoginOut where
  resp : Response
  cookie : Option (Jwt × Nat)
  deriving Repr, DecidableEq

/-- Embedding of `exports.login`.  On success the controller sets
`user.token = token` and `user.password = undefined` on the fetched
in-memory document only — it never calls `user.save()` — so the store is
returned unchanged and the mutated view appears only in the response
payload as a `LoginView`.  Both failure lookups answer the same
undifferentiated 400 "Invalid credentials". -/
def login (st : Store) (now : Nat) (email password secret : String) :
    Store × LoginOut :=
  if email == "" || password == "" then
    (st, { resp := failResp 400 "All fields are required", cookie := none })
  else
    match findUserByEmail st email with
    | none =>
        (st, { resp := failResp 400 "Invalid credentials", cookie := none })
    | some user =>
        if !bcryptCompare password user.password then
          (st, { resp := failResp 400 "Invalid credentials", cookie := none })
        else
          let token := jwtSign
            { id := user.id, email := user.email, accountType := user.accountType }
            secret now
          let userView : LoginView :=
            { id := user.id, firstName := user.firstName,
              lastName := user.lastName, email := user.email,
              accountType := user.accountType, active := user.active,
              approved := user.approved, image := user.image,
              token := token, resetPasswordExpires := user.resetPasswordExpires,
              profileRef := user.profileRef, createdAt := user.createdAt }
          (st, { resp := { status := 200, success := true,
                           message := "User logged in successfully",
                           data := RespData.loginData userView },
                 cookie := some (token, now + 3 * 24 * 60 * 60) })

/-! ### Controller `resetPasswordToken` (ResetPassword.js, phase 1) -/

/-- Embedding of `exports.resetPasswordToken`.  `resetToken` stands for the
fresh draw `crypto.randomBytes(20).toString("hex")`.  The source assigns
`user.resetPasswordToken = resetToken` and
`user.resetPasswordExpire = Date.now() + 300000`, but neither
`resetPasswordToken` nor `resetPasswordExpire` is a path of the `User`
schema (which declares `resetPasswordExpires`), so under Mongoose strict
mode `user.save()` persists no change: the stored record is written back
unmodified.  The response echoes the full reset link (and so the raw
token) to the caller. -/
def resetPasswordToken (st : Store) (now : Nat) (name email : String)
    (resetToken : String) (clientUrl : String) (mail : MailResult) :
    Store × Response :=
  match findUserByEmail st email with
  | none => (st, failResp 404 "User not found.")
  | some user =>
      let _resetPasswordExpireDraft := now + 300
      let st2 := saveUser st user.id user
      let resetLink := clientUrl ++ "/reset-password/" ++ resetToken
      let _mailFired := (mail, name)
      (st2, { status := 200, success := true,
              message := "Reset password link sent successfully.",
              data := RespData.resetLinkData resetLink })

/-! ### Controller `updatePassword` (ResetPassword.js, phase 2) -/

/-- Embedding of `exports.updatePassword`.  The source, in order:
password-match check; `User.findOne({ token })` — a lookup on the session
`token` schema path, not on any reset-token field; the destructuring
`const { email, firstName } = user`, which throws a TypeError when `user`
is `null`, so the subsequent `if (!user)` 404 "Invalid token." branch is
dead and the catch block answers 500; the expiry test
`user.resetPasswordExpire < Date.now()` reads a path absent from the
schema (`undefined < now` is false), so "Token expired." is never taken;
on the surviving path the password is hashed and the document is saved
with `user.token = null` and `user.resetPasswordExpires = null`, and the
200 response carries `data: { hashedPassword, email }`. -/
def updatePassword (st : Store) (now : Nat)
    (newPassword confirmPassword token : String) (mail : MailResult) :
    Store × Response :=
  if newPassword != confirmPassword then
    (st, failResp 400 "Passwords do not match.")
  else
    let user? := findUserByToken st token
    match user? with
    | none =>
        (st, catchResp "Unable to update password."
          (JsErr.typeError "Cannot destructure property email of user as it is null."))
    | some user =>
        if jsLessThan (jsGetPropD (JSVal.userDoc user) "resetPasswordExpire")
            (JSVal.num now) then
          (st, failResp 400 "Token expired.")
        else
          let hashedPassword := bcryptHash newPassword
          let user2 : UserRec :=
            { user with password := hashedPassword, token := none,
                        resetPasswordExpires := none }
          let st2 := saveUser st user.id user2
          let _mailFired := mail
          (st2, { status := 200, success := true,
                  message := "Password updated successfully.",
                  data := RespData.pwData hashedPassword user.email })

/-! ### Middleware `auth`, `isStudent`, `isInstructor`, `isAdmin`
(AuthMiddleware.js) -/

/-- What a request carries into the `auth` middleware: the parsed `token`
cookie, the `token` body field, and the raw `Authorization` header. -/
structure AuthReq where
  cookieToken : Option TokenBlob
  bodyToken : Option TokenBlob
  authHeader : Option String
  deriving Repr, DecidableEq

/-- Outcome of a middleware: pass control on (with the decoded identity
attached to `req.user`), or answer immediately. -/
inductive MwOutcome where
  | next (user : JwtPayload)
  | halt (r : Response)
  deriving Repr, DecidableEq

/-- A middleware error response whose JSON uses an `error` field plus an
optional `message` field; both embed into `Response.message` and
`Response.data`. -/
def mwErrResp (status : Nat) (error : String) (detail : Option String) : Response :=
  { status := status, success := false, message := error,
    data := match detail with
            | none => RespData.nothing
            | some m => RespData.errData m }

/-- Embedding of `exports.auth`.  The extraction expression is
`req.cookies.token || req.body.token || req.headers("Authorization").replace("Bearer ", "")`:
`||` short-circuits on the first present (truthy, i.e. nonempty-string)
token, so a cookie token wins, then a body token; when both are absent the
third operand calls `req.headers` — an object, not a function — which
throws a TypeError that the outer catch answers with 500, so the
`Authorization` header is never consulted and the 401 "Token is missing"
branch is unreachable.  A token obtained from cookie or body is passed to
`jwt.verify`; any verification failure answers 401 "Token is invalid". -/
def auth (req : AuthReq) (secret : String) (now : Nat) : MwOutcome :=
  let token? : Except JsErr TokenBlob :=
    match req.cookieToken with
    | some t => Except.ok t
    | none =>
        match req.bodyToken with
        | some t => Except.ok t
        | none => Except.error (JsErr.typeError "req.headers is not a function")
  match token? with
  | Except.error e =>
      match e with
      | JsErr.typeError m =>
          MwOutcome.halt (mwErrResp 500 "Unable to validate token" (some m))
  | Except.ok token =>
      match jwtVerify token secret now with
      | none =>
          MwOutcome.halt (mwErrResp 401 "Token is invalid" (some "jwt verification failed"))
      | some decoded => MwOutcome.next decoded

/-- Embedding of `exports.isStudent`: exact string comparison of the decoded
`accountType` against "Student"; mismatch answers 403 Access Denied. -/
def isStudent (user : JwtPayload) : MwOutcome :=
  if user.accountType != "Student" then
    MwOutcome.halt (mwErrResp 403 "Access Denied"
      (some "You are not authorized to access this resource"))
  else
    MwOutcome.next user

/-- Embedding of `exports.isInstructor`: exact string comparison against
"Instructor"; mismatch answers 403 Access Denied. -/
def isInstructor (user : JwtPayload) : MwOutcome :=
  if user.accountType != "Instructor" then
    MwOutcome.halt (mwErrResp 403 "Access Denied"
      (some "You are not authorized to access this resource"))
  else
    MwOutcome.next user

/-- Embedding of `exports.isAdmin`: exact string comparison against "Admin";
mismatch answers 403 Access Denied. -/
def isAdmin (user : JwtPayload) : MwOutcome :=
  if user.accountType != "Admin" then
    MwOutcome.halt (mwErrResp 403 "Access Denied"
      (some "You are not authorized to access this resource"))
  else
    MwOutcome.next user

/-! ### Shared sample data for witnesses -/

/-- A stored user whose password hash was derived from "pw-old". -/
def sampleUser : UserRec :=
  { id := 1, firstName := "Ada", lastName := "Lovelace", email := "a@x.com",
    password := bcryptHash "pw-old", accountType := "Student", active := true,
    approved := false, image := "img", token := none,
    resetPasswordExpires := none, profileRef := some 0, createdAt := 0 }

/-- A live OTP record for `a@x.com` issued at t = 0 with code 482913. -/
def sampleOtp : OTPRec :=
  { email := "a@x.com", otp := "482913", createdAt := 0 }

/-- A store holding only `sampleOtp` (no users). -/
def otpOnlyStore : Store :=
  { users := [], otps := [sampleOtp], profiles := [], nextId := 5 }

/-- A store holding only `sampleUser`. -/
def userOnlyStore : Store :=
  { users := [sampleUser], otps := [], profiles := [], nextId := 5 }

/-- A fully valid signup payload for `a@x.com` matching `sampleOtp`. -/
def sampleSignup : SignupArgs :=
  { firstName := "Ada", lastName := "Lovelace", email := "a@x.com",
    password := "pw1", confirmPassword := "pw1", accountType := "Student",
    otp := "482913" }

/-! ### C1 -/

/-- C1: the claim states that a signup request with all seven fields
non-empty, matching passwords, an unregistered email, and a live OTP record
whose code equals the supplied otp succeeds with 201 and creates the user.
The code instead crashes on every such request: `signup` resolves
`OTP.findOne(...)` to a single document, then evaluates
`otpPresent.length == 0` (false, since `length` is `undefined`) and
`otpPresent[0].otp` (a TypeError, since `otpPresent[0]` is `undefined`),
so the catch block answers 500 "Unable to register user" and no user is
created. -/
theorem signup_valid_request_returns_500 (st : Store) (now : Nat)
    (a : SignupArgs) (r : OTPRec)
    (hfn : a.firstName ≠ "") (hln : a.lastName ≠ "") (hem : a.email ≠ "")
    (hpw : a.password ≠ "") (hcp : a.confirmPassword ≠ "")
    (hat : a.accountType ≠ "") (hotp : a.otp ≠ "")
    (hmatch : a.password = a.confirmPassword)
    (hnouser : findUserByEmail st a.email = none)
    (hrecent : recentOtp st now a.email = some r)
    (hcode : r.otp = a.otp) :
    signup st now a = (st, catchResp "Unable to register user"
      (JsErr.typeError "Cannot read properties of undefined (reading otp)")) := by
  simp only [signup, hnouser, hrecent, signupOtpCheck, jsGetProp]
  have e1 : (a.firstName == "") = false := by
    simpa using hfn
  have e2 : (a.lastName == "") = false := by
    simpa using hln
  have e3 : (a.email == "") = false := by
    simpa using hem
  have e4 : (a.password == "") = false := by
    simpa using hpw
  have e5 : (a.confirmPassword == "") = false := by
    simpa using hcp
  have e6 : (a.accountType == "") = false := by
    simpa using hat
  have e7 : (a.otp == "") = false := by
    simpa using hotp
  have e8 : (a.password != a.confirmPassword) = false := by
    simp [hmatch]
  simp [e1, e2, e3, e4, e5, e6, e7, e8, jsLooseEqZero, jsToNumber,
    Bind.bind, Except.bind]

/-- Witness for C1 at a concrete input: the OTP "482913" is live for
`a@x.com` at t = 250, the payload is fully valid, and the call answers the
500 catch response. -/
theorem signup_valid_request_returns_500_witness :
    signup otpOnlyStore 250 sampleSignup
      = (otpOnlyStore, catchResp "Unable to register user"
          (JsErr.typeError "Cannot read properties of undefined (reading otp)")) :=
  signup_valid_request_returns_500 otpOnlyStore 250 sampleSignup sampleOtp
    (by decide) (by decide) (by decide) (by decide) (by decide) (by decide)
    (by decide) (by decide) (by decide) (by decide) (by decide)

/-! ### C2 -/

/-- The pre-save hook's mail step catches every delivery error, so it never
propagates one. -/
theorem sendVerificationEmail_never_throws (m : MailResult) :
    sendVerificationEmail m = Except.ok () := by
  cases m <;> rfl

/-- An always-empty example store. -/
def emptyStore : Store :=
  { users := [], otps := [], profiles := [], nextId := 0 }

/-- A generator that always draws the code 482913. -/
def constGen : Nat → String :=
  fun _ => "482913"

/-- C2: the claim states that no auth-core response ever contains a raw OTP
code.  The code violates it: every successful `sendOTP` answers with
`data: { payload, OTPBody }`, where both `payload.otp` and `OTPBody.otp` are
the raw generated code, as this evaluation of the whole controller shows.
(The reset flow similarly echoes the raw reset link in
`resetPasswordToken`, and `updatePassword` returns the new password hash in
`data: { hashedPassword, email }`.) -/
theorem sendOTP_success_response_contains_raw_code (st : Store) (now : Nat)
    (email : String) (gen : Nat → String) (mail : MailResult)
    (hnouser : findUserByEmail st email = none)
    (hfresh : findOtpByCode st now (gen 0) = none) :
    sendOTP st now email gen mail
      = ({ st with otps := st.otps ++ [{ email := email, otp := gen 0, createdAt := now }] },
         { status := 200, success := true, message := "OTP sent successfully",
           data := RespData.otpData email (gen 0)
             { email := email, otp := gen 0, createdAt := now } }) := by
  simp [sendOTP, hnouser, hfresh, otpCreate, sendVerificationEmail_never_throws,
    Bind.bind, Except.bind]

/-- Witness for C2: requesting an OTP for a fresh email against the empty
store returns the drawn code 482913 inside the response payload. -/
theorem sendOTP_success_response_contains_raw_code_witness :
    sendOTP emptyStore 0 "a@x.com" constGen (MailResult.delivered "ok")
      = ({ emptyStore with
            otps := [{ email := "a@x.com", otp := "482913", createdAt := 0 }] },
         { status := 200, success := true, message := "OTP sent successfully",
           data := RespData.otpData "a@x.com" "482913"
             { email := "a@x.com", otp := "482913", createdAt := 0 } }) :=
  sendOTP_success_response_contains_raw_code emptyStore 0 "a@x.com" constGen
    (MailResult.delivered "ok") (by decide) (by decide)

/-! ### C3 -/

/-- Reading the non-schema path `resetPasswordExpire` of any user document
yields `undefined`. -/
theorem jsGetPropD_resetPasswordExpire (u : UserRec) :
    jsGetPropD (JSVal.userDoc u) "resetPasswordExpire" = JSVal.undef := rfl

/-- After saving a document whose `token` path was cleared, no stored user
carries the presented token (given that only documents with the saved id
carried it). -/
theorem findUserByToken_after_save_clear (st : Store) (t : String) (uid : Nat)
    (u2 : UserRec) (hu2 : u2.token = none)
    (hid : ∀ v ∈ st.users, v.token = some t → v.id = uid) :
    findUserByToken (saveUser st uid u2) t = none := by
  apply List.find?_eq_none.mpr
  intro v hv
  rcases List.mem_map.mp hv with ⟨w, hw, hfw⟩
  by_cases hc : w.id = uid
  · have hveq : v = u2 := by
      rw [← hfw]
      simp [hc]
    simp [hveq, hu2]
  · have hveq : v = w := by
      rw [← hfw]
      simp [hc]
    subst hveq
    intro heq
    exact hc (hid v hw (by simpa using heq))

/-- The per-user record written back by a successful `updatePassword`. -/
def clearedUser (u : UserRec) (np : String) : UserRec :=
  { u with password := bcryptHash np, token := none,
           resetPasswordExpires := none }

/-- C3: the claim states that a successful `resetPassword` clears the reset
token and its expiry together with the password write, so that presenting
the same token again fails InvalidToken.  In the code the success path
(reachable only because `User.findOne({ token })` matches the session
`token` schema path) clears `user.token` and `user.resetPasswordExpires`,
and a second presentation of the same token then crashes on
`const { email, firstName } = user` with `user` null: the response is the
500 catch response "Unable to update password.", never the 404
"Invalid token." the claim requires (that branch sits after the throwing
destructuring and is dead code). -/
theorem updatePassword_token_reuse_returns_500 (st : Store) (now now2 : Nat)
    (np t : String) (mail mail2 : MailResult) (u : UserRec)
    (hfind : findUserByToken st t = some u)
    (hid : ∀ v ∈ st.users, v.token = some t → v.id = u.id) :
    updatePassword st now np np t mail
      = (saveUser st u.id (clearedUser u np),
         { status := 200, success := true,
           message := "Password updated successfully.",
           data := RespData.pwData (bcryptHash np) u.email })
    ∧ updatePassword (saveUser st u.id (clearedUser u np)) now2 np np t mail2
      = (saveUser st u.id (clearedUser u np),
         catchResp "Unable to update password."
           (JsErr.typeError "Cannot destructure property email of user as it is null.")) := by
  have hnone : findUserByToken (saveUser st u.id (clearedUser u np)) t = none :=
    findUserByToken_after_save_clear st t u.id (clearedUser u np) rfl hid
  constructor
  · simp [updatePassword, hfind, jsGetPropD_resetPasswordExpire, jsLessThan,
      jsToNumber, clearedUser]
  · simp [updatePassword, hnone]

/-- A user record holding the session-token value "cafe01" on its `token`
schema path (the only state in which the phase-2 lookup can match). -/
def tokenBearingUser : UserRec :=
  { sampleUser with token := some "cafe01" }

/-- A store holding only `tokenBearingUser`. -/
def tokenStore : Store :=
  { users := [tokenBearingUser], otps := [], profiles := [], nextId := 5 }

/-- Witness for C3 at a concrete input: the first `updatePassword` with
token "cafe01" succeeds and the immediate replay of the same token answers
the 500 catch response. -/
theorem updatePassword_token_reuse_returns_500_witness :
    updatePassword tokenStore 10 "pw-new" "pw-new" "cafe01" (MailResult.delivered "ok")
      = (saveUser tokenStore tokenBearingUser.id (clearedUser tokenBearingUser "pw-new"),
         { status := 200, success := true,
           message := "Password updated successfully.",
           data := RespData.pwData (bcryptHash "pw-new") tokenBearingUser.email })
    ∧ updatePassword
        (saveUser tokenStore tokenBearingUser.id (clearedUser tokenBearingUser "pw-new"))
        20 "pw-new" "pw-new" "cafe01" (MailResult.delivered "ok")
      = (saveUser tokenStore tokenBearingUser.id (clearedUser tokenBearingUser "pw-new"),
         catchResp "Unable to update password."
           (JsErr.typeError "Cannot destructure property email of user as it is null.")) :=
  updatePassword_token_reuse_returns_500 tokenStore 10 20 "pw-new" "cafe01"
    (MailResult.delivered "ok") (MailResult.delivered "ok") tokenBearingUser
    (by decide) (by decide)

/-! ### C4 -/

/-- C4 counterexample: the claim states that a successful login persists the
freshly minted session token onto the stored User record.  At this concrete
input the login succeeds (status 200) yet the store is returned unchanged
and the stored record still carries no token at all: `login` mutates only
the in-memory document and never calls `save`. -/
theorem login_token_not_persisted :
    ((login userOnlyStore 100 "a@x.com" "pw-old" "sec").2.resp.status = 200)
    ∧ (login userOnlyStore 100 "a@x.com" "pw-old" "sec").1 = userOnlyStore
    ∧ findUserByEmail (login userOnlyStore 100 "a@x.com" "pw-old" "sec").1 "a@x.com"
        = some sampleUser
    ∧ sampleUser.token = none := by
  decide

/-- C4 amended: a successful login mints the 1-hour token embedding
`{ id, email, accountType }` and returns it in the response payload and the
3-day cookie only; the credential store is returned unchanged, so no session
token is persisted on the User record (and in particular no prior stored
token is overwritten). -/
theorem login_success_token_in_response_only (st : Store) (now : Nat)
    (email password secret : String) (u : UserRec)
    (hem : email ≠ "") (hpw : password ≠ "")
    (hfind : findUserByEmail st email = some u)
    (hcmp : bcryptCompare password u.password = true) :
    login st now email password secret
      = (st,
         { resp := { status := 200, success := true,
                     message := "User logged in successfully",
                     data := RespData.loginData
                       { id := u.id, firstName := u.firstName,
                         lastName := u.lastName, email := u.email,
                         accountType := u.accountType, active := u.active,
                         approved := u.approved, image := u.image,
                         token := jwtSign
                           { id := u.id, email := u.email,
                             accountType := u.accountType } secret now,
                         resetPasswordExpires := u.resetPasswordExpires,
                         profileRef := u.profileRef, createdAt := u.createdAt } },
           cookie := some (jwtSign
             { id := u.id, email := u.email, accountType := u.accountType }
             secret now, now + 3 * 24 * 60 * 60) }) := by
  have e1 : (email == "") = false := by
    simpa using hem
  have e2 : (password == "") = false := by
    simpa using hpw
  simp [login, e1, e2, hfind, hcmp]

/-- Witness for C4 amended at the concrete store: logging in with the
correct password returns the minted token in payload and cookie while the
store is unchanged. -/
theorem login_success_token_in_response_only_witness :
    login userOnlyStore 100 "a@x.com" "pw-old" "sec"
      = (userOnlyStore,
         { resp := { status := 200, success := true,
                     message := "User logged in successfully",
                     data := RespData.loginData
                       { id := 1, firstName := "Ada", lastName := "Lovelace",
                         email := "a@x.com", accountType := "Student",
                         active := true, approved := false, image := "img",
                         token := jwtSign
                           { id := 1, email := "a@x.com",
                             accountType := "Student" } "sec" 100,
                         resetPasswordExpires := none, profileRef := some 0,
                         createdAt := 0 } },
           cookie := some (jwtSign
             { id := 1, email := "a@x.com", accountType := "Student" }
             "sec" 100, 100 + 3 * 24 * 60 * 60) }) :=
  login_success_token_in_response_only userOnlyStore 100 "a@x.com" "pw-old"
    "sec" sampleUser (by decide) (by decide) (by decide) (by decide)

/-! ### C5 -/

/-- C5: the claim states that `resetPassword` with matching passwords fails
InvalidToken (404) when no user carries the presented token and TokenExpired
(400) when the stored expiry has passed, with PasswordMismatch checked
first.  Only the PasswordMismatch part holds.  When no user matches, the
destructuring `const { email, firstName } = user` throws before the
`if (!user)` test, so the call answers the 500 catch response instead of
404 "Invalid token."; and no call whatsoever can answer
400 "Token expired.", because the guard reads `user.resetPasswordExpire`, a
path absent from the schema, and `undefined < Date.now()` is false. -/
theorem updatePassword_error_paths (st : Store) (now : Nat)
    (np cp t : String) (mail : MailResult) :
    (np = cp → findUserByToken st t = none →
      updatePassword st now np cp t mail
        = (st, catchResp "Unable to update password."
            (JsErr.typeError "Cannot destructure property email of user as it is null.")))
    ∧ (np ≠ cp →
      updatePassword st now np cp t mail
        = (st, failResp 400 "Passwords do not match."))
    ∧ (updatePassword st now np cp t mail).2 ≠ failResp 400 "Token expired." := by
  refine ⟨?_, ?_, ?_⟩
  · intro hnp hnone
    subst hnp
    simp [updatePassword, hnone]
  · intro hne
    have e : (np != cp) = true := by
      simpa using hne
    simp [updatePassword, e]
  · unfold updatePassword
    split
    · simp [failResp]
    · cases hfind : findUserByToken st t with
      | none => simp [hfind, catchResp, failResp]
      | some u =>
          simp [hfind, jsGetPropD_resetPasswordExpire, jsLessThan, jsToNumber,
            failResp]

/-- Witness for C5 at concrete inputs: with matching passwords and a token
no user carries, the call answers the 500 catch response; with mismatched
passwords it answers PasswordMismatch. -/
theorem updatePassword_error_paths_witness :
    (updatePassword emptyStore 0 "pw" "pw" "deadbeef" (MailResult.delivered "ok")
      = (emptyStore, catchResp "Unable to update password."
          (JsErr.typeError "Cannot destructure property email of user as it is null.")))
    ∧ (updatePassword emptyStore 0 "pw" "pw2" "deadbeef" (MailResult.delivered "ok")
      = (emptyStore, failResp 400 "Passwords do not match.")) :=
  ⟨(updatePassword_error_paths emptyStore 0 "pw" "pw" "deadbeef"
      (MailResult.delivered "ok")).1 rfl (by decide),
   (updatePassword_error_paths emptyStore 0 "pw" "pw2" "deadbeef"
      (MailResult.delivered "ok")).2.1 (by decide)⟩

/-! ### C6 -/

/-- C6: the claim states that the gate tries cookie, body, then bearer
header, failing MissingToken (401) when none carries a token and
InvalidToken (401) on malformed, wrongly signed, or expired tokens.  The
cookie-then-body order and the InvalidToken behaviour hold, but the third
source is broken: the extraction expression calls `req.headers` as a
function, which throws, so whenever neither cookie nor body carries a token
— with or without an Authorization header — the middleware answers the 500
catch response, the 401 "Token is missing" branch being unreachable.  The
remaining conjuncts show the InvalidToken half on cookie-borne tokens:
malformed, expired (a token signed at 0 presented at 5000 > 3600), and
wrongly signed ones all answer 401 "Token is invalid". -/
theorem auth_without_cookie_or_body_returns_500 (secret : String) (now : Nat)
    (hdr : Option String) (m : String) (p : JwtPayload) (e : Nat) :
    (auth { cookieToken := none, bodyToken := none, authHeader := hdr } secret now
      = MwOutcome.halt (mwErrResp 500 "Unable to validate token"
          (some "req.headers is not a function")))
    ∧ (auth { cookieToken := some (TokenBlob.malformed m), bodyToken := none,
              authHeader := hdr } secret now
      = MwOutcome.halt (mwErrResp 401 "Token is invalid"
          (some "jwt verification failed")))
    ∧ (auth { cookieToken := some (TokenBlob.signed (jwtSign p secret 0)),
              bodyToken := none, authHeader := hdr } secret 5000
      = MwOutcome.halt (mwErrResp 401 "Token is invalid"
          (some "jwt verification failed")))
    ∧ (auth { cookieToken := some (TokenBlob.signed (Jwt.mk p e "otherkey")),
              bodyToken := none, authHeader := hdr } "sec" now
      = MwOutcome.halt (mwErrResp 401 "Token is invalid"
          (some "jwt verification failed"))) := by
  refine ⟨rfl, rfl, ?_, ?_⟩
  · simp [auth, jwtVerify, jwtSign]
  · simp [auth, jwtVerify]

/-! ### C7 -/

/-- C7: for any pair of login requests, one with an email belonging to no
stored user and one with a registered email but a wrong password, the two
results are identical — the same undifferentiated 400 "Invalid credentials"
response with no cookie — so the caller receives no signal distinguishing
the two cases. -/
theorem login_invalid_credentials_indistinguishable (st : Store) (now : Nat)
    (e1 p1 e2 p2 secret : String) (u : UserRec)
    (h1 : e1 ≠ "") (h2 : p1 ≠ "") (h3 : e2 ≠ "") (h4 : p2 ≠ "")
    (habs : findUserByEmail st e1 = none)
    (hpres : findUserByEmail st e2 = some u)
    (hwrong : bcryptCompare p2 u.password = false) :
    login st now e1 p1 secret = login st now e2 p2 secret
    ∧ login st now e1 p1 secret
        = (st, { resp := failResp 400 "Invalid credentials", cookie := none }) := by
  have a1 : (e1 == "") = false := by
    simpa using h1
  have a2 : (p1 == "") = false := by
    simpa using h2
  have a3 : (e2 == "") = false := by
    simpa using h3
  have a4 : (p2 == "") = false := by
    simpa using h4
  constructor
  · simp [login, a1, a2, a3, a4, habs, hpres, hwrong]
  · simp [login, a1, a2, habs]

/-- Witness for C7 at a concrete store: an unknown email and a wrong
password against the registered `a@x.com` yield the identical failure. -/
theorem login_invalid_credentials_indistinguishable_witness :
    login userOnlyStore 7 "nobody@x.com" "pw" "sec"
      = login userOnlyStore 7 "a@x.com" "wrong" "sec"
    ∧ login userOnlyStore 7 "nobody@x.com" "pw" "sec"
      = (userOnlyStore,
         { resp := failResp 400 "Invalid credentials", cookie := none }) :=
  login_invalid_credentials_indistinguishable userOnlyStore 7 "nobody@x.com"
    "pw" "a@x.com" "wrong" "sec" sampleUser (by decide) (by decide) (by decide)
    (by decide) (by decide) (by decide) (by decide)

/-! ### C8 -/

/-- C8: the claim states that on a code collision with a live OTP record the
generator re-draws until a unique code is obtained.  The retry loop instead
throws on its first iteration — `result = await OTP.findOne({ otp })`
assigns to the `const` binding `result` — so a colliding request answers
the 500 catch response "Unable to send OTP" and persists nothing; no
re-drawn code is ever stored. -/
theorem sendOTP_collision_returns_500 (st : Store) (now : Nat) (email : String)
    (gen : Nat → String) (mail : MailResult) (r : OTPRec)
    (hnouser : findUserByEmail st email = none)
    (hcoll : findOtpByCode st now (gen 0) = some r) :
    sendOTP st now email gen mail
      = (st, catchResp "Unable to send OTP"
          (JsErr.typeError "Assignment to constant variable.")) := by
  simp [sendOTP, hnouser, hcoll]

/-- Witness for C8 at a concrete input: the code 482913 is already live, the
drawn code collides with it, and the request answers the 500 catch
response with the store unchanged. -/
theorem sendOTP_collision_returns_500_witness :
    sendOTP otpOnlyStore 250 "b@y.com" constGen (MailResult.delivered "ok")
      = (otpOnlyStore, catchResp "Unable to send OTP"
          (JsErr.typeError "Assignment to constant variable.")) :=
  sendOTP_collision_returns_500 otpOnlyStore 250 "b@y.com" constGen
    (MailResult.delivered "ok") sampleOtp (by decide) (by decide)

/-! ### C9 -/

/-- The 403 response every role gate answers on a mismatch. -/
def accessDeniedResp : Response :=
  mwErrResp 403 "Access Denied"
    (some "You are not authorized to access this resource")

/-- C9: each role gate compares the decoded role against its required role
by exact string match and answers 403 Access Denied on any mismatch; in
particular the admin role ("Admin", the spec's Administrator) and the
learner role ("Student", the spec's Learner) are both denied by the
Instructor-only gate — no role implicitly satisfies another gate. -/
theorem roleGates_exact_match (u : JwtPayload) :
    (isInstructor u = if u.accountType = "Instructor" then MwOutcome.next u
      else MwOutcome.halt accessDeniedResp)
    ∧ (isAdmin u = if u.accountType = "Admin" then MwOutcome.next u
      else MwOutcome.halt accessDeniedResp)
    ∧ (isStudent u = if u.accountType = "Student" then MwOutcome.next u
      else MwOutcome.halt accessDeniedResp)
    ∧ (isInstructor { u with accountType := "Admin" }
        = MwOutcome.halt accessDeniedResp)
    ∧ (isInstructor { u with accountType := "Student" }
        = MwOutcome.halt accessDeniedResp) := by
  refine ⟨?_, ?_, ?_, ?_, ?_⟩
  · by_cases h : u.accountType = "Instructor" <;>
      simp [isInstructor, accessDeniedResp, h]
  · by_cases h : u.accountType = "Admin" <;>
      simp [isAdmin, accessDeniedResp, h]
  · by_cases h : u.accountType = "Student" <;>
      simp [isStudent, accessDeniedResp, h]
  · simp [isInstructor, accessDeniedResp]
  · simp [isInstructor, accessDeniedResp]

/-! ### C10 -/

/-- C10: when delivery of the generated code fails, `sendOTP` still persists
the OTP record and answers 200 success — the pre-save hook catches the
delivery error instead of propagating it — and the undelivered record stays
among the live records exactly until 300 seconds after its creation. -/
theorem sendOTP_mail_failure_still_persists (st : Store) (now : Nat)
    (email : String) (gen : Nat → String) (msg : String) (t : Nat)
    (hnouser : findUserByEmail st email = none)
    (hfresh : findOtpByCode st now (gen 0) = none) :
    sendOTP st now email gen (MailResult.failed msg)
      = ({ st with
            otps := st.otps ++ [{ email := email, otp := gen 0, createdAt := now }] },
         { status := 200, success := true, message := "OTP sent successfully",
           data := RespData.otpData email (gen 0)
             { email := email, otp := gen 0, createdAt := now } })
    ∧ (({ email := email, otp := gen 0, createdAt := now } : OTPRec)
        ∈ liveOtps (sendOTP st now email gen (MailResult.failed msg)).1 t
       ↔ t < now + 300) := by
  have hmain : sendOTP st now email gen (MailResult.failed msg)
      = ({ st with
            otps := st.otps ++ [{ email := email, otp := gen 0, createdAt := now }] },
         { status := 200, success := true, message := "OTP sent successfully",
           data := RespData.otpData email (gen 0)
             { email := email, otp := gen 0, createdAt := now } }) := by
    simp [sendOTP, hnouser, hfresh, otpCreate, sendVerificationEmail_never_throws,
      Bind.bind, Except.bind]
  refine ⟨hmain, ?_⟩
  rw [hmain]
  simp [liveOtps]

/-- Witness for C10 at a concrete input: with the mailer failing, the record
for `a@x.com` is persisted, the response is 200 success, and the record is
live at t = 100 (before its expiry at 300). -/
theorem sendOTP_mail_failure_still_persists_witness :
    sendOTP emptyStore 0 "a@x.com" constGen (MailResult.failed "smtp down")
      = ({ emptyStore with
            otps := [{ email := "a@x.com", otp := "482913", createdAt := 0 }] },
         { status := 200, success := true, message := "OTP sent successfully",
           data := RespData.otpData "a@x.com" "482913"
             { email := "a@x.com", otp := "482913", createdAt := 0 } })
    ∧ (({ email := "a@x.com", otp := "482913", createdAt := 0 } : OTPRec)
        ∈ liveOtps (sendOTP emptyStore 0 "a@x.com" constGen
            (MailResult.failed "smtp down")).1 100
       ↔ 100 < 0 + 300) :=
  sendOTP_mail_failure_still_persists emptyStore 0 "a@x.com" constGen
    "smtp down" 100 (by decide) (by decide)

end VoltEd
